import Mathlib

/-!
Verification of the drift bridge core: health aggregation, drift point
queries, cross-database helpers, schema migration, and the
feedback-to-confidence calculus.

The Rust sources are shallowly embedded: SQLite connections become
explicit state records (tables as presence flags plus row lists,
an optional connection fault standing for arbitrary store errors),
`rusqlite` results become `Except SqliteError`, `f64` columns that are
only ever stored and compared become `Rat`, and `u32` becomes `Nat`.
-/

namespace Drift

/-! ## SQLite connection model -/

/-- Model of `rusqlite::Error` as the queries distinguish it: the dedicated
`QueryReturnedNoRows` variant, and every other store error collapsed to its
textual form (`sqlFailure msg`). -/
inductive SqliteError where
  | queryReturnedNoRows : SqliteError
  | sqlFailure : String → SqliteError
deriving DecidableEq

/-- The textual form of an error (`rusqlite::Error::to_string`). -/
def SqliteError.text : SqliteError → String
  | .queryReturnedNoRows => "Query returned no rows"
  | .sqlFailure m => m

/-- Model of one SQLite table: whether it exists in the store, and its rows. -/
structure Table (ρ : Type) where
  present : Bool
  rows : List ρ
deriving DecidableEq

/-- Does `pat` occur as a contiguous run of `l`?  Model of Rust
`str::contains` on the character level. -/
def charsHaveRun (pat : List Char) : List Char → Bool
  | [] => pat.isEmpty
  | c :: cs => runStartsAt pat (c :: cs) || charsHaveRun pat cs
where
  /-- Does `l` start with `pat`? -/
  runStartsAt : List Char → List Char → Bool
    | [], _ => true
    | _ :: _, [] => false
    | a :: as, b :: bs => a == b && runStartsAt as bs

/-- Model of Rust `String::contains(pat)`. -/
def strContains (s pat : String) : Bool :=
  charsHaveRun pat.data s.data

/-- Model of `rusqlite::Connection::query_row` for a single-table point
lookup `SELECT col FROM t WHERE key = ?1`: a broken connection surfaces its
fault; a missing table fails with SQLite's `no such table:` message; an
existing table yields the first matching row or `QueryReturnedNoRows`. -/
def queryRow {ρ α : Type} (fault : Option String) (t : Table ρ)
    (tableName : String) (pred : ρ → Bool) (col : ρ → α) :
    Except SqliteError α :=
  match fault with
  | some m => .error (.sqlFailure m)
  | none =>
    if t.present then
      match t.rows.find? pred with
      | some r => .ok (col r)
      | none => .error .queryReturnedNoRows
    else
      .error (.sqlFailure ("no such table: " ++ tableName))

/-! ## Drift evidence store (query/drift_queries.rs, query/cross_db.rs)

Row shapes follow the spec's "Evidence row shapes" table; the schemas are
owned by the external drift store and only the columns read by the ten
queries are modelled.  `f64` readings become `Rat`. -/

structure PatternRow where
  id : String
  confidence : Rat
  occurrence_rate : Rat
deriving DecidableEq

structure ViolationFeedbackRow where
  pattern_id : String
  fp_rate : Rat
deriving DecidableEq

structure ConstraintRow where
  id : String
  verified : Bool
deriving DecidableEq

structure CouplingRow where
  module : String
  instability : Rat
deriving DecidableEq

structure DnaRow where
  project : String
  health_score : Rat
deriving DecidableEq

structure TestTopologyRow where
  module : String
  coverage : Rat
deriving DecidableEq

structure ErrorHandlingRow where
  module : String
  gap_count : Nat
deriving DecidableEq

structure DecisionRow where
  id : String
  evidence_score : Rat
deriving DecidableEq

structure BoundaryRow where
  id : String
  boundary_score : Rat
deriving DecidableEq

structure ScanRow where
  created_at : Int
deriving DecidableEq

/-- A connection to the drift store: an optional connection-level fault
(modelling any store error other than the ones arising from table lookup)
and the ten evidence tables. -/
structure DriftDb where
  fault : Option String
  drift_patterns : Table PatternRow
  drift_violation_feedback : Table ViolationFeedbackRow
  drift_constraints : Table ConstraintRow
  drift_coupling : Table CouplingRow
  drift_dna : Table DnaRow
  drift_test_topology : Table TestTopologyRow
  drift_error_handling : Table ErrorHandlingRow
  drift_decisions : Table DecisionRow
  drift_boundaries : Table BoundaryRow
  drift_scans : Table ScanRow

/-- Embedding of `pattern_confidence` (query/drift_queries.rs). -/
def pattern_confidence (conn : DriftDb) (pattern_id : String) :
    Except SqliteError (Option Rat) :=
  match queryRow conn.fault conn.drift_patterns "drift_patterns"
      (fun r => r.id == pattern_id) (fun r => r.confidence) with
  | .ok v => .ok (some v)
  | .error .queryReturnedNoRows => .ok none
  | .error e => .error e

/-- Embedding of `pattern_occurrence_rate` (query/drift_queries.rs). -/
def pattern_occurrence_rate (conn : DriftDb) (pattern_id : String) :
    Except SqliteError (Option Rat) :=
  match queryRow conn.fault conn.drift_patterns "drift_patterns"
      (fun r => r.id == pattern_id) (fun r => r.occurrence_rate) with
  | .ok v => .ok (some v)
  | .error .queryReturnedNoRows => .ok none
  | .error e => .error e

/-- Embedding of `false_positive_rate` (query/drift_queries.rs). -/
def false_positive_rate (conn : DriftDb) (pattern_id : String) :
    Except SqliteError (Option Rat) :=
  match queryRow conn.fault conn.drift_violation_feedback "drift_violation_feedback"
      (fun r => r.pattern_id == pattern_id) (fun r => r.fp_rate) with
  | .ok v => .ok (some v)
  | .error .queryReturnedNoRows => .ok none
  | .error e => .error e

/-- Embedding of `constraint_verified` (query/drift_queries.rs). -/
def constraint_verified (conn : DriftDb) (constraint_id : String) :
    Except SqliteError (Option Bool) :=
  match queryRow conn.fault conn.drift_constraints "drift_constraints"
      (fun r => r.id == constraint_id) (fun r => r.verified) with
  | .ok v => .ok (some v)
  | .error .queryReturnedNoRows => .ok none
  | .error e => .error e

/-- Embedding of `coupling_metric` (query/drift_queries.rs). -/
def coupling_metric (conn : DriftDb) (module_path : String) :
    Except SqliteError (Option Rat) :=
  match queryRow conn.fault conn.drift_coupling "drift_coupling"
      (fun r => r.module == module_path) (fun r => r.instability) with
  | .ok v => .ok (some v)
  | .error .queryReturnedNoRows => .ok none
  | .error e => .error e

/-- Embedding of `dna_health` (query/drift_queries.rs). -/
def dna_health (conn : DriftDb) (project : String) :
    Except SqliteError (Option Rat) :=
  match queryRow conn.fault conn.drift_dna "drift_dna"
      (fun r => r.project == project) (fun r => r.health_score) with
  | .ok v => .ok (some v)
  | .error .queryReturnedNoRows => .ok none
  | .error e => .error e

/-- Embedding of `test_coverage` (query/drift_queries.rs). -/
def test_coverage (conn : DriftDb) (module_path : String) :
    Except SqliteError (Option Rat) :=
  match queryRow conn.fault conn.drift_test_topology "drift_test_topology"
      (fun r => r.module == module_path) (fun r => r.coverage) with
  | .ok v => .ok (some v)
  | .error .queryReturnedNoRows => .ok none
  | .error e => .error e

/-- Embedding of `error_handling_gaps` (query/drift_queries.rs). -/
def error_handling_gaps (conn : DriftDb) (module_path : String) :
    Except SqliteError (Option Nat) :=
  match queryRow conn.fault conn.drift_error_handling "drift_error_handling"
      (fun r => r.module == module_path) (fun r => r.gap_count) with
  | .ok v => .ok (some v)
  | .error .queryReturnedNoRows => .ok none
  | .error e => .error e

/-- Embedding of `decision_evidence` (query/drift_queries.rs). -/
def decision_evidence (conn : DriftDb) (decision_id : String) :
    Except SqliteError (Option Rat) :=
  match queryRow conn.fault conn.drift_decisions "drift_decisions"
      (fun r => r.id == decision_id) (fun r => r.evidence_score) with
  | .ok v => .ok (some v)
  | .error .queryReturnedNoRows => .ok none
  | .error e => .error e

/-- Embedding of `boundary_data` (query/drift_queries.rs). -/
def boundary_data (conn : DriftDb) (boundary_id : String) :
    Except SqliteError (Option Rat) :=
  match queryRow conn.fault conn.drift_boundaries "drift_boundaries"
      (fun r => r.id == boundary_id) (fun r => r.boundary_score) with
  | .ok v => .ok (some v)
  | .error .queryReturnedNoRows => .ok none
  | .error e => .error e

/-- Model of `query_row` for `SELECT MAX(created_at) FROM drift.drift_scans`:
an aggregate query always returns one row whose value is the maximum, or
NULL on an empty table. -/
def queryMaxCreatedAt (conn : DriftDb) : Except SqliteError (Option Int) :=
  match conn.fault with
  | some m => .error (.sqlFailure m)
  | none =>
    if conn.drift_scans.present then
      .ok (conn.drift_scans.rows.map (fun r => r.created_at)).max?
    else
      .error (.sqlFailure ("no such table: drift.drift_scans"))

/-- Embedding of `latest_scan_timestamp` (query/cross_db.rs). -/
def latest_scan_timestamp (conn : DriftDb) : Except SqliteError (Option Int) :=
  match queryMaxCreatedAt conn with
  | .ok ts => .ok ts
  | .error .queryReturnedNoRows => .ok none
  | .error e =>
    if strContains e.text "no such table" then .ok none
    else .error e

/-- A drift store in which none of the evidence tables exists yet. -/
def emptyDriftDb : DriftDb where
  fault := none
  drift_patterns := ⟨false, []⟩
  drift_violation_feedback := ⟨false, []⟩
  drift_constraints := ⟨false, []⟩
  drift_coupling := ⟨false, []⟩
  drift_dna := ⟨false, []⟩
  drift_test_topology := ⟨false, []⟩
  drift_error_handling := ⟨false, []⟩
  drift_decisions := ⟨false, []⟩
  drift_boundaries := ⟨false, []⟩
  drift_scans := ⟨false, []⟩

/-- A drift store whose connection reports a fault unrelated to tables. -/
def faultedDriftDb : DriftDb :=
  { emptyDriftDb with fault := some "disk I/O error" }

/-! ## Health checks and readiness (health/readiness.rs) -/

/-- A per-subsystem health check result.  The `SubsystemCheck` type itself
lives in `health/checks.rs` (not under `src/`); its fields are pinned by the
uses in `readiness.rs` (`c.name`, `c.healthy`, `c.detail`) and by the spec's
data model: a tuple `(name, healthy : bool, detail : string)`. -/
structure SubsystemCheck where
  name : String
  healthy : Bool
  detail : String
deriving DecidableEq

/-- Bridge health, a sum type `Available | Degraded(reasons) | Unavailable`.
Declared in `health/status.rs` (not under `src/`); variants are pinned by
`compute_health` in `readiness.rs`, the match in `tools/drift_health.rs`,
and the spec's data model. -/
inductive BridgeHealth where
  | Available : BridgeHealth
  | Degraded : List String → BridgeHealth
  | Unavailable : BridgeHealth
deriving DecidableEq

/-- Embedding of `compute_health` (health/readiness.rs). -/
def compute_health (checks : List SubsystemCheck) : BridgeHealth :=
  if checks.isEmpty then
    BridgeHealth.Unavailable
  else
    let unhealthy : List String :=
      (checks.filter (fun c => !c.healthy)).map (fun c => c.name ++ ": " ++ c.detail)
    if unhealthy.isEmpty then
      BridgeHealth.Available
    else if checks.any (fun c => c.healthy) then
      BridgeHealth.Degraded unhealthy
    else
      BridgeHealth.Unavailable

/-- Embedding of `is_ready` (health/readiness.rs). -/
def is_ready (checks : List SubsystemCheck) : Bool :=
  checks.any (fun c => c.name == "cortex_db" && c.healthy)

/-! ## Bridge store and schema migrations (storage/migrations.rs)

The bridge store connection is modelled without a fault channel: the
migration claims quantify over stores, and the only recoverable error its
marker query can produce (`QueryReturnedNoRows`) is modelled directly.
`recorded_at` timestamps are `Nat`; the connection carries a clock stamped
onto inserted rows. -/

/-- A `bridge_metrics` row: `(metric_name, metric_value, recorded_at)`
(spec §6; the value column is an `f64`, modelled as `Rat`). -/
structure MetricRow where
  metric_name : String
  metric_value : Rat
  recorded_at : Nat
deriving DecidableEq

/-- A `bridge_event_log` row as the migration engine writes it:
`(event_type, memory_type)`. -/
structure EventLogRow where
  event_type : String
  memory_type : String
deriving DecidableEq

/-- A connection to the bridge store: the five v1 bridge tables (spec §6:
`bridge_memories`, `bridge_event_log`, `bridge_metrics`, grounding results,
links) and the clock used to stamp `recorded_at` on inserts.  Rows of
tables never read by the migration engine are typed `Unit`. -/
structure BridgeDb where
  bridge_metrics : Table MetricRow
  bridge_memories : Table Unit
  bridge_event_log : Table EventLogRow
  bridge_grounding : Table Unit
  bridge_links : Table Unit
  clock : Nat
deriving DecidableEq

/-- Embedding of `CURRENT_VERSION` (storage/migrations.rs). -/
def CURRENT_VERSION : Nat := 1

/-- Model of `ORDER BY recorded_at DESC LIMIT 1`: the first row (in table
order) among those with the largest `recorded_at`. -/
def mostRecent : List MetricRow → Option MetricRow
  | [] => none
  | r :: rs =>
    match mostRecent rs with
    | none => some r
    | some b => if b.recorded_at > r.recorded_at then some b else some r

/-- Model of SQLite `CAST(x AS INTEGER)` on a numeric value: truncation
toward zero. -/
def sqlCastToInt (q : Rat) : Int :=
  q.num.tdiv q.den

/-- Model of the marker query
`SELECT CAST(metric_value AS INTEGER) FROM bridge_metrics WHERE
metric_name = 'schema_version' ORDER BY recorded_at DESC LIMIT 1`
(the `u32` read of the cast value is modelled as clamping at zero). -/
def queryVersionMarker (db : BridgeDb) : Except SqliteError Nat :=
  match mostRecent (db.bridge_metrics.rows.filter
      (fun r => r.metric_name == "schema_version")) with
  | some r => .ok (sqlCastToInt r.metric_value).toNat
  | none => .error .queryReturnedNoRows

/-- Embedding of `get_schema_version` (storage/migrations.rs): the
`sqlite_master` existence check, then the marker query with its
`QueryReturnedNoRows` fallback to the `bridge_memories` existence check. -/
def get_schema_version (db : BridgeDb) : Except SqliteError Nat :=
  if !db.bridge_metrics.present then
    .ok 0
  else
    match queryVersionMarker db with
    | .ok version => .ok version
    | .error .queryReturnedNoRows =>
      .ok (if db.bridge_memories.present then 1 else 0)
    | .error e => .error e

/-- C5 spec-side function, written from the spec's words (§4.4 "Version
resolution algorithm"): 1. missing `bridge_metrics` → 0; 2. else the
most-recent `schema_version` metric value cast to integer; 3. else 1 if
`bridge_memories` exists, otherwise 0. -/
def version_resolution_spec (db : BridgeDb) : Nat :=
  if db.bridge_metrics.present = false then 0
  else
    match mostRecent (db.bridge_metrics.rows.filter
        (fun r => r.metric_name == "schema_version")) with
    | some r => (sqlCastToInt r.metric_value).toNat
    | none => if db.bridge_memories.present then 1 else 0

/-- Embedding of `set_schema_version` (storage/migrations.rs):
`INSERT INTO bridge_metrics (metric_name, metric_value) VALUES
('schema_version', v as f64)`; `recorded_at` is stamped with the clock
(its schema default; storage/schema.rs is not under `src/`). -/
def set_schema_version (db : BridgeDb) (version : Nat) :
    Except SqliteError BridgeDb :=
  if db.bridge_metrics.present then
    .ok { db with
      bridge_metrics := ⟨true, db.bridge_metrics.rows ++
        [⟨"schema_version", (version : Rat), db.clock⟩]⟩,
      clock := db.clock + 1 }
  else .error (.sqlFailure "no such table: bridge_metrics")

/-- Embedding of the event-log insert in `migrate`:
`INSERT INTO bridge_event_log (event_type, memory_type) VALUES
('schema_migration', 'v0_to_v1')`. -/
def logMigrationEvent (db : BridgeDb) (memory_type : String) :
    Except SqliteError BridgeDb :=
  if db.bridge_event_log.present then
    .ok { db with bridge_event_log := ⟨true,
      db.bridge_event_log.rows ++ [⟨"schema_migration", memory_type⟩]⟩ }
  else .error (.sqlFailure "no such table: bridge_event_log")

/-- Modelled from the spec: `BRIDGE_TABLES_V1` (storage/schema.rs is not
under `src/`).  Per §4.4 the 0→1 step "installs the five bridge tables and
the event log"; per S2 outcomes are non-destructive, so existing rows are
preserved (CREATE TABLE IF NOT EXISTS semantics). -/
def executeBatchV1 (db : BridgeDb) : BridgeDb :=
  { db with
    bridge_metrics := ⟨true, db.bridge_metrics.rows⟩,
    bridge_memories := ⟨true, db.bridge_memories.rows⟩,
    bridge_event_log := ⟨true, db.bridge_event_log.rows⟩,
    bridge_grounding := ⟨true, db.bridge_grounding.rows⟩,
    bridge_links := ⟨true, db.bridge_links.rows⟩ }

/-- Embedding of `migrate` (storage/migrations.rs); the `?` operator of
the source becomes `Except.bind`. -/
def migrate (db : BridgeDb) : Except SqliteError (Nat × BridgeDb) :=
  (get_schema_version db).bind (fun current =>
    if current ≥ CURRENT_VERSION then
      .ok (current, db)
    else
      (if current < 1 then
        (set_schema_version (executeBatchV1 db) 1).bind (fun dbB =>
          logMigrationEvent dbB "v0_to_v1")
      else .ok db).bind (fun db1 =>
        (get_schema_version db1).bind (fun final_version =>
          .ok (final_version, db1))))

/-- Representation invariant of a live bridge store: every stored
`recorded_at` strictly precedes the connection clock (timestamps are
wall-clock instants of past inserts). -/
def ClockConsistent (db : BridgeDb) : Prop :=
  ∀ r ∈ db.bridge_metrics.rows, r.recorded_at < db.clock

/-- The store produced by the 0→1 migration step, written out. -/
def migratedDb (db : BridgeDb) : BridgeDb where
  bridge_metrics := ⟨true, db.bridge_metrics.rows ++
    [⟨"schema_version", ((1 : Nat) : Rat), db.clock⟩]⟩
  bridge_memories := ⟨true, db.bridge_memories.rows⟩
  bridge_event_log := ⟨true, db.bridge_event_log.rows ++
    [⟨"schema_migration", "v0_to_v1"⟩]⟩
  bridge_grounding := ⟨true, db.bridge_grounding.rows⟩
  bridge_links := ⟨true, db.bridge_links.rows⟩
  clock := db.clock + 1

/-- A fresh bridge store: no tables yet, clock at zero. -/
def freshBridgeDb : BridgeDb where
  bridge_metrics := ⟨false, []⟩
  bridge_memories := ⟨false, []⟩
  bridge_event_log := ⟨false, []⟩
  bridge_grounding := ⟨false, []⟩
  bridge_links := ⟨false, []⟩
  clock := 0

/-- Number of `schema_migration` rows in the event log. -/
def migrationEventCount (db : BridgeDb) : Nat :=
  (db.bridge_event_log.rows.filter
    (fun e => e.event_type == "schema_migration")).length

/-! ## Feedback-to-confidence calculus (drift-storage queries/enforcement.rs) -/

/-- A `feedback` row (`FeedbackRow` in queries/enforcement.rs). -/
structure FeedbackRow where
  violation_id : String
  pattern_id : String
  detector_id : String
  action : String
  dismissal_reason : Option String
  reason : Option String
  author : Option String
  created_at : Nat
deriving DecidableEq

/-- A connection to the drift enforcement store, as the feedback queries
see it: the rows of the `feedback` table. -/
structure EnforcementDb where
  feedback : List FeedbackRow
deriving DecidableEq

/-- Insert into a list already descending in `created_at`. -/
def insertByCreatedDesc (x : FeedbackRow) :
    List FeedbackRow → List FeedbackRow
  | [] => [x]
  | y :: ys =>
    if x.created_at ≥ y.created_at then x :: y :: ys
    else y :: insertByCreatedDesc x ys

/-- Model of `ORDER BY created_at DESC` (ties are unspecified in SQLite;
this sort picks one order). -/
def sortByCreatedDesc : List FeedbackRow → List FeedbackRow
  | [] => []
  | x :: xs => insertByCreatedDesc x (sortByCreatedDesc xs)

/-- Embedding of `query_feedback_by_pattern` (queries/enforcement.rs):
`SELECT … FROM feedback WHERE pattern_id = ?1 ORDER BY created_at DESC`. -/
def query_feedback_by_pattern (conn : EnforcementDb) (pattern_id : String) :
    List FeedbackRow :=
  sortByCreatedDesc (conn.feedback.filter (fun f => f.pattern_id == pattern_id))

/-- Embedding of `feedback_action_to_deltas` (queries/enforcement.rs);
the `f64` deltas (1.0, 0.5, 0.25, 0.1, 0.0 — all exactly representable)
become the rationals 1, 1/2, 1/4, 1/10, 0. -/
def feedback_action_to_deltas (action : String)
    (dismissal_reason : Option String) : Rat × Rat :=
  match action with
  | "fix" => (1, 0)
  | "dismiss" =>
    match dismissal_reason with
    | some "false_positive" => (0, 1/2)
    | some "not_applicable" => (0, 1/4)
    | some "wont_fix" | some "duplicate" => (0, 0)
    | _ => (0, 1/4)
  | "suppress" => (0, 1/10)
  | "escalate" => (1/2, 0)
  | _ => (0, 0)

/-- Embedding of `query_feedback_adjustments` (queries/enforcement.rs). -/
def query_feedback_adjustments (conn : EnforcementDb) (pattern_id : String) :
    List (Rat × Rat) :=
  (query_feedback_by_pattern conn pattern_id).map
    (fun f => feedback_action_to_deltas f.action f.dismissal_reason)

/-! ## Theorems: drift point-query error policy -/

/-- C1 (counterexample): the claimed uniform policy says an error whose
textual form contains `"no such table"` yields `Ok(None)`; but on a drift
store without the `drift_patterns` table, `pattern_confidence` surfaces
exactly such an error as `Err` instead of returning `Ok(None)`.  (The
`no such table` recovery exists only in `latest_scan_timestamp`.) -/
theorem pattern_confidence_no_such_table_surfaced :
    pattern_confidence emptyDriftDb "p1" =
      .error (.sqlFailure "no such table: drift_patterns") ∧
    strContains (SqliteError.sqlFailure "no such table: drift_patterns").text
      "no such table" = true ∧
    pattern_confidence emptyDriftDb "p1" ≠ .ok none := by
  refine ⟨rfl, by decide, ?_⟩
  intro h
  rw [show pattern_confidence emptyDriftDb "p1" =
      .error (.sqlFailure "no such table: drift_patterns") from rfl] at h
  exact Except.noConfusion h

/-- C1 (amended): the error policy actually uniform across the ten drift
point queries: a found row yields `Ok(Some v)`, `QueryReturnedNoRows`
(no matching row in an existing table) yields `Ok(None)`, and every other
store error — including a `no such table` error for a missing table and
any connection fault — is surfaced unchanged as `Err`. -/
theorem drift_queries_error_policy :
    (∀ (db : DriftDb) (k : String), pattern_confidence db k =
      (match db.fault with
       | some m => .error (.sqlFailure m)
       | none =>
         if db.drift_patterns.present then
           .ok ((db.drift_patterns.rows.find? (fun r => r.id == k)).map
             (fun r => r.confidence))
         else .error (.sqlFailure "no such table: drift_patterns"))) ∧
    (∀ (db : DriftDb) (k : String), pattern_occurrence_rate db k =
      (match db.fault with
       | some m => .error (.sqlFailure m)
       | none =>
         if db.drift_patterns.present then
           .ok ((db.drift_patterns.rows.find? (fun r => r.id == k)).map
             (fun r => r.occurrence_rate))
         else .error (.sqlFailure "no such table: drift_patterns"))) ∧
    (∀ (db : DriftDb) (k : String), false_positive_rate db k =
      (match db.fault with
       | some m => .error (.sqlFailure m)
       | none =>
         if db.drift_violation_feedback.present then
           .ok ((db.drift_violation_feedback.rows.find?
               (fun r => r.pattern_id == k)).map (fun r => r.fp_rate))
         else .error (.sqlFailure "no such table: drift_violation_feedback"))) ∧
    (∀ (db : DriftDb) (k : String), constraint_verified db k =
      (match db.fault with
       | some m => .error (.sqlFailure m)
       | none =>
         if db.drift_constraints.present then
           .ok ((db.drift_constraints.rows.find? (fun r => r.id == k)).map
             (fun r => r.verified))
         else .error (.sqlFailure "no such table: drift_constraints"))) ∧
    (∀ (db : DriftDb) (k : String), coupling_metric db k =
      (match db.fault with
       | some m => .error (.sqlFailure m)
       | none =>
         if db.drift_coupling.present then
           .ok ((db.drift_coupling.rows.find? (fun r => r.module == k)).map
             (fun r => r.instability))
         else .error (.sqlFailure "no such table: drift_coupling"))) ∧
    (∀ (db : DriftDb) (k : String), dna_health db k =
      (match db.fault with
       | some m => .error (.sqlFailure m)
       | none =>
         if db.drift_dna.present then
           .ok ((db.drift_dna.rows.find? (fun r => r.project == k)).map
             (fun r => r.health_score))
         else .error (.sqlFailure "no such table: drift_dna"))) ∧
    (∀ (db : DriftDb) (k : String), test_coverage db k =
      (match db.fault with
       | some m => .error (.sqlFailure m)
       | none =>
         if db.drift_test_topology.present then
           .ok ((db.drift_test_topology.rows.find? (fun r => r.module == k)).map
             (fun r => r.coverage))
         else .error (.sqlFailure "no such table: drift_test_topology"))) ∧
    (∀ (db : DriftDb) (k : String), error_handling_gaps db k =
      (match db.fault with
       | some m => .error (.sqlFailure m)
       | none =>
         if db.drift_error_handling.present then
           .ok ((db.drift_error_handling.rows.find? (fun r => r.module == k)).map
             (fun r => r.gap_count))
         else .error (.sqlFailure "no such table: drift_error_handling"))) ∧
    (∀ (db : DriftDb) (k : String), decision_evidence db k =
      (match db.fault with
       | some m => .error (.sqlFailure m)
       | none =>
         if db.drift_decisions.present then
           .ok ((db.drift_decisions.rows.find? (fun r => r.id == k)).map
             (fun r => r.evidence_score))
         else .error (.sqlFailure "no such table: drift_decisions"))) ∧
    (∀ (db : DriftDb) (k : String), boundary_data db k =
      (match db.fault with
       | some m => .error (.sqlFailure m)
       | none =>
         if db.drift_boundaries.present then
           .ok ((db.drift_boundaries.rows.find? (fun r => r.id == k)).map
             (fun r => r.boundary_score))
         else .error (.sqlFailure "no such table: drift_boundaries"))) := by
  refine ⟨?_, ?_, ?_, ?_, ?_, ?_, ?_, ?_, ?_, ?_⟩
  · intro db k
    unfold pattern_confidence queryRow
    cases db.fault with
    | some m => rfl
    | none =>
      cases hp : db.drift_patterns.present with
      | true =>
        cases hf : db.drift_patterns.rows.find? (fun r => r.id == k) with
        | some r => rfl
        | none => rfl
      | false => rfl
  · intro db k
    unfold pattern_occurrence_rate queryRow
    cases db.fault with
    | some m => rfl
    | none =>
      cases hp : db.drift_patterns.present with
      | true =>
        cases hf : db.drift_patterns.rows.find? (fun r => r.id == k) with
        | some r => rfl
        | none => rfl
      | false => rfl
  · intro db k
    unfold false_positive_rate queryRow
    cases db.fault with
    | some m => rfl
    | none =>
      cases hp : db.drift_violation_feedback.present with
      | true =>
        cases hf : db.drift_violation_feedback.rows.find? (fun r => r.pattern_id == k) with
        | some r => rfl
        | none => rfl
      | false => rfl
  · intro db k
    unfold constraint_verified queryRow
    cases db.fault with
    | some m => rfl
    | none =>
      cases hp : db.drift_constraints.present with
      | true =>
        cases hf : db.drift_constraints.rows.find? (fun r => r.id == k) with
        | some r => rfl
        | none => rfl
      | false => rfl
  · intro db k
    unfold coupling_metric queryRow
    cases db.fault with
    | some m => rfl
    | none =>
      cases hp : db.drift_coupling.present with
      | true =>
        cases hf : db.drift_coupling.rows.find? (fun r => r.module == k) with
        | some r => rfl
        | none => rfl
      | false => rfl
  · intro db k
    unfold dna_health queryRow
    cases db.fault with
    | some m => rfl
    | none =>
      cases hp : db.drift_dna.present with
      | true =>
        cases hf : db.drift_dna.rows.find? (fun r => r.project == k) with
        | some r => rfl
        | none => rfl
      | false => rfl
  · intro db k
    unfold test_coverage queryRow
    cases db.fault with
    | some m => rfl
    | none =>
      cases hp : db.drift_test_topology.present with
      | true =>
        cases hf : db.drift_test_topology.rows.find? (fun r => r.module == k) with
        | some r => rfl
        | none => rfl
      | false => rfl
  · intro db k
    unfold error_handling_gaps queryRow
    cases db.fault with
    | some m => rfl
    | none =>
      cases hp : db.drift_error_handling.present with
      | true =>
        cases hf : db.drift_error_handling.rows.find? (fun r => r.module == k) with
        | some r => rfl
        | none => rfl
      | false => rfl
  · intro db k
    unfold decision_evidence queryRow
    cases db.fault with
    | some m => rfl
    | none =>
      cases hp : db.drift_decisions.present with
      | true =>
        cases hf : db.drift_decisions.rows.find? (fun r => r.id == k) with
        | some r => rfl
        | none => rfl
      | false => rfl
  · intro db k
    unfold boundary_data queryRow
    cases db.fault with
    | some m => rfl
    | none =>
      cases hp : db.drift_boundaries.present with
      | true =>
        cases hf : db.drift_boundaries.rows.find? (fun r => r.id == k) with
        | some r => rfl
        | none => rfl
      | false => rfl

/-! ## Theorems: latest scan timestamp -/

/-- C8: `latest_scan_timestamp` returns `Ok(None)` when the `drift_scans`
table does not exist; when the table exists it returns the maximum
`created_at` (so `None` on an empty table); a store error whose text does
not contain `"no such table"` is surfaced as `Err`. -/
theorem latest_scan_timestamp_policy (conn : DriftDb) :
    (conn.fault = none → conn.drift_scans.present = false →
      latest_scan_timestamp conn = .ok none) ∧
    (conn.fault = none → conn.drift_scans.present = true →
      latest_scan_timestamp conn =
        .ok ((conn.drift_scans.rows.map (fun r => r.created_at)).max?)) ∧
    (conn.fault = none → conn.drift_scans.present = true →
      conn.drift_scans.rows = [] → latest_scan_timestamp conn = .ok none) ∧
    (∀ m, conn.fault = some m → strContains m "no such table" = false →
      latest_scan_timestamp conn = .error (.sqlFailure m)) := by
  refine ⟨?_, ?_, ?_, ?_⟩
  · intro hf hp
    unfold latest_scan_timestamp queryMaxCreatedAt
    rw [hf, hp]
    rfl
  · intro hf hp
    unfold latest_scan_timestamp queryMaxCreatedAt
    rw [hf, hp]
    simp only [if_pos]
  · intro hf hp hr
    unfold latest_scan_timestamp queryMaxCreatedAt
    rw [hf, hp, hr]
    rfl
  · intro m hf hm
    unfold latest_scan_timestamp queryMaxCreatedAt
    rw [hf]
    simp only [SqliteError.text, hm, Bool.false_eq_true, if_false]

/-- C8 (witness): concrete stores exercising the missing-table and the
surfaced-fault branches. -/
theorem latest_scan_timestamp_policy_witness :
    latest_scan_timestamp emptyDriftDb = .ok none ∧
    latest_scan_timestamp faultedDriftDb = .error (.sqlFailure "disk I/O error") := by
  constructor
  · exact (latest_scan_timestamp_policy emptyDriftDb).1 rfl rfl
  · exact (latest_scan_timestamp_policy faultedDriftDb).2.2.2 "disk I/O error" rfl
      (by decide)

/-! ## Theorems: health claims -/

/-- C2 (counterexample): the claimed equivalence
`compute_health cs = Available ↔ every check healthy` fails at the
concrete input `cs = []`: every check of the empty list is vacuously
healthy, yet the code returns `Unavailable`. -/
theorem compute_health_empty_refutes_available_iff :
    ¬ (compute_health [] = BridgeHealth.Available ↔
        ∀ c ∈ ([] : List SubsystemCheck), c.healthy = true) := by
  intro h
  have h2 : compute_health [] = BridgeHealth.Available := h.mpr (by simp)
  simp [compute_health] at h2

/-- C2 (amended): for every list of subsystem checks `cs`, `compute_health cs`
is `Available` iff `cs` is nonempty and every check in `cs` is healthy;
on the empty list the result is `Unavailable`, not `Available`. -/
theorem compute_health_available_iff (cs : List SubsystemCheck) :
    compute_health cs = BridgeHealth.Available ↔
      cs ≠ [] ∧ ∀ c ∈ cs, c.healthy = true := by
  unfold compute_health
  by_cases hemp : cs.isEmpty
  · rw [List.isEmpty_iff] at hemp
    subst hemp
    simp
  · rw [List.isEmpty_iff] at hemp
    simp only [List.isEmpty_iff, if_neg hemp]
    by_cases hall : ∀ c ∈ cs, c.healthy = true
    · have hfilter : cs.filter (fun c => !c.healthy) = [] := by
        rw [List.filter_eq_nil_iff]
        intro c hc
        simp [hall c hc]
      simp only [hfilter]
      simp only [List.map_nil, List.isEmpty_nil, if_pos]
      exact ⟨fun _ => ⟨hemp, hall⟩, fun _ => trivial⟩
    · have ⟨c, hc, hch⟩ : ∃ c ∈ cs, ¬ c.healthy = true := by
        push_neg at hall; exact hall
      have hfilter : c ∈ cs.filter (fun c => !c.healthy) := by
        rw [List.mem_filter]
        exact ⟨hc, by simp [hch]⟩
      have hne : ¬ (cs.filter (fun c => !c.healthy)).isEmpty = true := by
        rw [List.isEmpty_iff]
        intro h0
        rw [h0] at hfilter
        exact absurd hfilter (List.not_mem_nil c)
      constructor
      · intro h
        rw [if_neg (by simpa using hne)] at h
        by_cases hany : cs.any (fun c => c.healthy)
        · simp [hany] at h
        · simp [hany] at h
      · intro ⟨_, h⟩
        exact absurd (h c hc) hch

/-- C6: `is_ready cs` is true iff some check in `cs` has name `"cortex_db"`
and is healthy. -/
theorem is_ready_iff_cortex_db_healthy (cs : List SubsystemCheck) :
    is_ready cs = true ↔ ∃ c ∈ cs, c.name = "cortex_db" ∧ c.healthy = true := by
  unfold is_ready
  rw [List.any_eq_true]
  constructor
  · intro ⟨c, hc, hp⟩
    rw [Bool.and_eq_true, beq_iff_eq] at hp
    exact ⟨c, hc, hp.1, hp.2⟩
  · intro ⟨c, hc, hn, hh⟩
    exact ⟨c, hc, by rw [Bool.and_eq_true, beq_iff_eq]; exact ⟨hn, hh⟩⟩

/-- C9: readiness implies non-unavailability: if `is_ready cs` then
`compute_health cs` is `Available` or `Degraded`, never `Unavailable`,
because a healthy `cortex_db` check is in particular a healthy check. -/
theorem is_ready_implies_not_unavailable (cs : List SubsystemCheck)
    (h : is_ready cs = true) :
    compute_health cs ≠ BridgeHealth.Unavailable := by
  unfold is_ready at h
  rw [List.any_eq_true] at h
  obtain ⟨c, hc, hp⟩ := h
  rw [Bool.and_eq_true] at hp
  have hne : ¬ cs.isEmpty := by
    rw [List.isEmpty_iff]
    intro h0
    rw [h0] at hc
    exact absurd hc (List.not_mem_nil c)
  have hany : cs.any (fun c => c.healthy) = true := by
    rw [List.any_eq_true]
    exact ⟨c, hc, hp.2⟩
  unfold compute_health
  rw [if_neg hne]
  by_cases hf : ((cs.filter (fun c => !c.healthy)).map
      (fun c => c.name ++ ": " ++ c.detail)).isEmpty
  · simp only [hf, if_pos]
    intro h0
    exact absurd h0 (by simp)
  · simp only [hf, if_neg, Bool.false_eq_true, if_false, hany, if_pos]
    intro h0
    exact absurd h0 (by simp)

/-- C9 (witness): a concrete ready check list on which the implication fires. -/
theorem is_ready_implies_not_unavailable_witness :
    compute_health [⟨"cortex_db", true, "ok"⟩] ≠ BridgeHealth.Unavailable :=
  is_ready_implies_not_unavailable [⟨"cortex_db", true, "ok"⟩] (by decide)

/-! ## Theorems: schema migration -/

/-- `Except.bind` on a success is the continuation. -/
theorem except_bind_ok {ε α β : Type} (a : α) (f : α → Except ε β) :
    Except.bind (Except.ok a) f = f a := rfl

/-- Appending a row with a strictly larger timestamp makes it the
most-recent row. -/
theorem mostRecent_append_newest (l : List MetricRow) (x : MetricRow)
    (h : ∀ r ∈ l, r.recorded_at < x.recorded_at) :
    mostRecent (l ++ [x]) = some x := by
  induction l with
  | nil => rfl
  | cons r rs ih =>
    have hr : r.recorded_at < x.recorded_at := h r (List.mem_cons_self r rs)
    have ih2 := ih (fun y hy => h y (List.mem_cons_of_mem r hy))
    have hr' : x.recorded_at > r.recorded_at := hr
    show (match mostRecent (rs ++ [x]) with
      | none => some r
      | some b =>
        if b.recorded_at > r.recorded_at then some b else some r) = some x
    rw [ih2]
    show (if x.recorded_at > r.recorded_at then some x else some r) = some x
    rw [if_pos hr']

/-- After the 0→1 step, the version marker row is the most recent metric
and the schema version reads back as 1. -/
theorem get_schema_version_migratedDb (db : BridgeDb)
    (hcc : ClockConsistent db) :
    get_schema_version (migratedDb db) = .ok 1 := by
  have hmem : ∀ r ∈ db.bridge_metrics.rows.filter
      (fun r => r.metric_name == "schema_version"),
      r.recorded_at <
        (⟨"schema_version", ((1 : Nat) : Rat), db.clock⟩ : MetricRow).recorded_at :=
    fun r hr => hcc r (List.mem_of_mem_filter hr)
  have hsingle : List.filter (fun r => r.metric_name == "schema_version")
      [(⟨"schema_version", ((1 : Nat) : Rat), db.clock⟩ : MetricRow)] =
      [(⟨"schema_version", ((1 : Nat) : Rat), db.clock⟩ : MetricRow)] := rfl
  unfold get_schema_version queryVersionMarker migratedDb
  rw [List.filter_append, hsingle, mostRecent_append_newest _ _ hmem]
  show Except.ok ((sqlCastToInt ((1 : Nat) : Rat)).toNat) = Except.ok 1
  norm_num [sqlCastToInt]

/-- Running `migrate` on a store at version 0 performs the 0→1 step. -/
theorem migrate_from_zero (db : BridgeDb) (hcc : ClockConsistent db)
    (hv : get_schema_version db = .ok 0) :
    migrate db = .ok (1, migratedDb db) := by
  have hstep : Except.bind (set_schema_version (executeBatchV1 db) 1)
      (fun dbB => logMigrationEvent dbB "v0_to_v1") = .ok (migratedDb db) := rfl
  unfold migrate
  rw [hv]
  simp only [except_bind_ok]
  rw [if_neg (by decide : ¬ ((0 : Nat) ≥ CURRENT_VERSION)),
    if_pos (by decide : (0 : Nat) < 1), hstep]
  simp only [except_bind_ok]
  rw [get_schema_version_migratedDb db hcc]
  simp only [except_bind_ok]

/-- Running `migrate` on a store already at version `c ≥ CURRENT_VERSION`
returns `c` and the store unchanged. -/
theorem migrate_at_version (db : BridgeDb) (c : Nat)
    (hv : get_schema_version db = .ok c) (hc : c ≥ CURRENT_VERSION) :
    migrate db = .ok (c, db) := by
  unfold migrate
  rw [hv]
  simp only [except_bind_ok]
  rw [if_pos hc]

/-- C3: on every clock-consistent bridge store whose current version is at
most `CURRENT_VERSION`, `migrate` succeeds, returns `CURRENT_VERSION`, and
afterwards `get_schema_version` reads back exactly `CURRENT_VERSION`. -/
theorem migrate_reaches_current_version (db : BridgeDb) (c : Nat)
    (hcc : ClockConsistent db) (hv : get_schema_version db = .ok c)
    (hle : c ≤ CURRENT_VERSION) :
    ∃ db2, migrate db = .ok (CURRENT_VERSION, db2) ∧
      get_schema_version db2 = .ok CURRENT_VERSION := by
  rcases Nat.le_one_iff_eq_zero_or_eq_one.mp hle with hc | hc
  · subst hc
    exact ⟨migratedDb db, migrate_from_zero db hcc hv,
      get_schema_version_migratedDb db hcc⟩
  · subst hc
    exact ⟨db, migrate_at_version db 1 hv (le_refl 1), hv⟩

/-- C3 (witness): a fresh store migrates to version 1. -/
theorem migrate_reaches_current_version_witness :
    ∃ db2, migrate freshBridgeDb = .ok (CURRENT_VERSION, db2) ∧
      get_schema_version db2 = .ok CURRENT_VERSION :=
  migrate_reaches_current_version freshBridgeDb 0
    (fun r hr => absurd hr (List.not_mem_nil r)) rfl (by decide)

/-- C4: `migrate` is idempotent: if a first call on a clock-consistent
store at version `c` returns `(v, db2)`, then a second call returns the
same version and leaves `db2` unchanged, and across both calls exactly one
`schema_migration` event-log row is introduced per version step actually
executed (`CURRENT_VERSION - c` steps; zero when `c ≥ CURRENT_VERSION`,
where the first call already returns the store unchanged). -/
theorem migrate_idempotent_and_logs_once (db : BridgeDb) (c v : Nat)
    (db2 : BridgeDb) (hcc : ClockConsistent db)
    (hv : get_schema_version db = .ok c) (hm : migrate db = .ok (v, db2)) :
    migrate db2 = .ok (v, db2) ∧
    migrationEventCount db2 = migrationEventCount db + (CURRENT_VERSION - c) := by
  by_cases hc : c ≥ CURRENT_VERSION
  · have hm0 := migrate_at_version db c hv hc
    rw [hm0] at hm
    simp only [Except.ok.injEq, Prod.mk.injEq] at hm
    obtain ⟨hcv, hdb⟩ := hm
    subst hcv
    subst hdb
    refine ⟨hm0, ?_⟩
    rw [Nat.sub_eq_zero_of_le hc]
    exact (Nat.add_zero _).symm
  · have hc0 : c = 0 := Nat.lt_one_iff.mp (Nat.not_le.mp hc)
    subst hc0
    have hm0 := migrate_from_zero db hcc hv
    rw [hm0] at hm
    simp only [Except.ok.injEq, Prod.mk.injEq] at hm
    obtain ⟨hcv, hdb⟩ := hm
    subst hcv
    subst hdb
    constructor
    · exact migrate_at_version (migratedDb db) 1
        (get_schema_version_migratedDb db hcc) (le_refl 1)
    · unfold migrationEventCount migratedDb
      rw [List.filter_append]
      simp [CURRENT_VERSION]

/-- C4 (witness): both calls on a fresh store, with exactly one logged
migration event. -/
theorem migrate_idempotent_and_logs_once_witness :
    migrate (migratedDb freshBridgeDb) = .ok (1, migratedDb freshBridgeDb) ∧
    migrationEventCount (migratedDb freshBridgeDb) =
      migrationEventCount freshBridgeDb + (CURRENT_VERSION - 0) :=
  migrate_idempotent_and_logs_once freshBridgeDb 0 1 (migratedDb freshBridgeDb)
    (fun r hr => absurd hr (List.not_mem_nil r)) rfl
    (migrate_from_zero freshBridgeDb
      (fun r hr => absurd hr (List.not_mem_nil r)) rfl)

/-- C5: the embedded `get_schema_version` resolves the version by exactly
the spec's three-step algorithm: 0 when `bridge_metrics` is missing, else
the most-recent `schema_version` metric value cast to integer, else 1 or 0
by the existence of `bridge_memories`. -/
theorem get_schema_version_matches_spec (db : BridgeDb) :
    get_schema_version db = .ok (version_resolution_spec db) := by
  unfold get_schema_version version_resolution_spec queryVersionMarker
  cases hp : db.bridge_metrics.present with
  | false => rfl
  | true =>
    cases hmr : mostRecent (db.bridge_metrics.rows.filter
        (fun r => r.metric_name == "schema_version")) with
    | some r => rfl
    | none => rfl

/-! ## Theorems: feedback-to-confidence calculus -/

/-- C7: `query_feedback_adjustments` maps the retrieved feedback rows of a
pattern row-for-row, in order, through `feedback_action_to_deltas`, and
that map realises the spec's table exactly: fix → (1, 0); dismiss with
reason false_positive → (0, 0.5); not_applicable → (0, 0.25); wont_fix or
duplicate → (0, 0); any other or absent reason → (0, 0.25);
suppress → (0, 0.1); escalate → (0.5, 0); unknown action → (0, 0). -/
theorem query_feedback_adjustments_table :
    (∀ (conn : EnforcementDb) (pid : String),
      query_feedback_adjustments conn pid =
        (query_feedback_by_pattern conn pid).map
          (fun f => feedback_action_to_deltas f.action f.dismissal_reason)) ∧
    (∀ r, feedback_action_to_deltas "fix" r = (1, 0)) ∧
    feedback_action_to_deltas "dismiss" (some "false_positive") = (0, 1/2) ∧
    feedback_action_to_deltas "dismiss" (some "not_applicable") = (0, 1/4) ∧
    feedback_action_to_deltas "dismiss" (some "wont_fix") = (0, 0) ∧
    feedback_action_to_deltas "dismiss" (some "duplicate") = (0, 0) ∧
    (∀ s, s ≠ "false_positive" → s ≠ "not_applicable" → s ≠ "wont_fix" →
      s ≠ "duplicate" →
      feedback_action_to_deltas "dismiss" (some s) = (0, 1/4)) ∧
    feedback_action_to_deltas "dismiss" none = (0, 1/4) ∧
    (∀ r, feedback_action_to_deltas "suppress" r = (0, 1/10)) ∧
    (∀ r, feedback_action_to_deltas "escalate" r = (1/2, 0)) ∧
    (∀ a r, a ≠ "fix" → a ≠ "dismiss" → a ≠ "suppress" → a ≠ "escalate" →
      feedback_action_to_deltas a r = (0, 0)) := by
  refine ⟨fun conn pid => rfl, fun r => rfl, rfl, rfl, rfl, rfl, ?_, rfl,
    fun r => rfl, fun r => rfl, ?_⟩
  · intro s h1 h2 h3 h4
    unfold feedback_action_to_deltas
    split
    all_goals simp_all
  · intro a r h1 h2 h3 h4
    unfold feedback_action_to_deltas
    split
    all_goals simp_all

/-- C7 (witness): the hypothesis-bearing table rows at concrete inputs:
a dismiss with an unlisted reason, and an unknown action. -/
theorem query_feedback_adjustments_table_witness :
    feedback_action_to_deltas "dismiss" (some "stale") = (0, 1/4) ∧
    feedback_action_to_deltas "reopen" none = (0, 0) := by
  constructor
  · exact query_feedback_adjustments_table.2.2.2.2.2.2.1 "stale"
      (by decide) (by decide) (by decide) (by decide)
  · exact query_feedback_adjustments_table.2.2.2.2.2.2.2.2.2.2 "reopen" none
      (by decide) (by decide) (by decide) (by decide)

/-- C10: `feedback_action_to_deltas` is total with range inside the six
fixed delta pairs; both components are non-negative and at most one
component is nonzero. -/
theorem feedback_action_to_deltas_total (a : String) (r : Option String) :
    feedback_action_to_deltas a r ∈
      ([(1, 0), (1/2, 0), (0, 1/2), (0, 1/4), (0, 1/10), (0, 0)] :
        List (Rat × Rat)) ∧
    0 ≤ (feedback_action_to_deltas a r).1 ∧
    0 ≤ (feedback_action_to_deltas a r).2 ∧
    ((feedback_action_to_deltas a r).1 = 0 ∨
      (feedback_action_to_deltas a r).2 = 0) := by
  unfold feedback_action_to_deltas
  split
  · exact ⟨by simp, by norm_num, by norm_num, by norm_num⟩
  · split
    all_goals exact ⟨by simp, by norm_num, by norm_num, by norm_num⟩
  · exact ⟨by simp, by norm_num, by norm_num, by norm_num⟩
  · exact ⟨by simp, by norm_num, by norm_num, by norm_num⟩
  · exact ⟨by simp, by norm_num, by norm_num, by norm_num⟩

end Drift
